import Mathlib

/-!
Verification of the HVAC-Energy-Wastage detection-and-cost-estimation engine.

The definitions below are a shallow embedding of the rule and alignment code of
the repository: `HVAC_Scenarios_final_v2.py`, `HVAC_Scenarios_real_time_alerts.py`
and `app_utils.py`.  Numeric sensor values are modelled as rationals, pandas
missing values (NaN) as `Option`, data frames as lists of records.
-/

namespace HVAC

/-! ## Ghost-running scenario (HVAC_Scenarios_final_v2.py lines 162-194) -/

/-- Hour-of-day schedule classification, embedding lines 174-177 of
`HVAC_Scenarios_final_v2.py` (identical to lines 290-295 of
`HVAC_Scenarios_real_time_alerts.py`): if `off_start > off_end` the OFF window
wraps midnight and hour `h` is "OFF" when `h >= off_start or h < off_end`;
otherwise "OFF" when `off_start <= h < off_end`. -/
def Scheduled_Status (off_start off_end h : Nat) : String :=
  if off_start > off_end then
    if h ≥ off_start ∨ h < off_end then "OFF" else "ON"
  else
    if off_start ≤ h ∧ h < off_end then "OFF" else "ON"

/-- Actual running status, embedding line 171: `"ON" if Unit_Status > 0.5 else "OFF"`. -/
def Actual_Status (status : ℚ) : String :=
  if status > 1/2 then "ON" else "OFF"

/-- One row of the aligned hourly ghost-running frame: hour of day, mean power
draw for the bucket, and forward-filled status signal. -/
structure GhostRow where
  hour : Nat
  power : ℚ
  status : ℚ
deriving DecidableEq

/-- Per-row energy cost, embedding line 179: `Power_kW * cost_rate`. -/
def Energy_Cost (cost_rate : ℚ) (r : GhostRow) : ℚ :=
  r.power * cost_rate

/-- Flagged rows, embedding line 180:
`df[(df["Actual_Status"] == "ON") & (df["Scheduled_Status"] == "OFF")]`. -/
def waste_df (off_start off_end : Nat) (rows : List GhostRow) : List GhostRow :=
  rows.filter fun r =>
    (Actual_Status r.status == "ON") && (Scheduled_Status off_start off_end r.hour == "OFF")

/-- Total ghost-running cost, embedding `waste_df["Energy_Cost"].sum()` (line 188). -/
def ghost_total_cost (off_start off_end : Nat) (cost_rate : ℚ) (rows : List GhostRow) : ℚ :=
  ((waste_df off_start off_end rows).map (Energy_Cost cost_rate)).sum

/-- Flagged-hour count, embedding `len(waste_df)` (line 187). -/
def hours_flagged (off_start off_end : Nat) (rows : List GhostRow) : Nat :=
  (waste_df off_start off_end rows).length

/-- Carbon estimate, embedding `calculate_carbon` (line 90-91): `kwh * 0.71`. -/
def calculate_carbon (kwh : ℚ) : ℚ :=
  kwh * (71/100)

/-! ## Overcooling scenario (HVAC_Scenarios_final_v2.py lines 247-271) -/

/-- Overcooling fault flag, embedding line 256:
`(Room_Temp < Setpoint - 1) & (Valve_Position > 80)`. -/
def Fault (room setp valve : ℚ) : Bool :=
  decide (room < setp - 1) && decide (valve > 80)

/-- Temperature deviation, embedding line 257: `(Setpoint - Room_Temp).clip(0)`. -/
def Delta_T (room setp : ℚ) : ℚ :=
  max 0 (setp - room)

/-- Per-bucket cooling loss, embedding line 258:
`Delta_T * cooling_factor * Fault` (boolean Fault multiplies as 1/0). -/
def Cooling_Loss (cooling_factor room setp valve : ℚ) : ℚ :=
  Delta_T room setp * cooling_factor * (if Fault room setp valve then 1 else 0)

/-- One row of the aligned 15-minute overcooling frame. -/
structure CoolRow where
  room : ℚ
  setp : ℚ
  valve : ℚ
deriving DecidableEq

/-- Rows of the overcooling frame with the fault flag set,
embedding `df[df["Fault"]]` (lines 266 and 286). -/
def fault_rows (rows : List CoolRow) : List CoolRow :=
  rows.filter fun r => Fault r.room r.setp r.valve

/-! ## Alert edge-trigger state (HVAC_Scenarios_final_v2.py lines 182-194) -/

/-- One evaluation cycle of the ghost-alert state of
`HVAC_Scenarios_final_v2.py` lines 183-194: if alerts are enabled, the
predicate holds and the state is inactive, an alert is dispatched and the state
set active; if the predicate does not hold the state is cleared.  Returns
(alert dispatched this cycle, new state). -/
def ghost_alert_update (enable_email condition_active active : Bool) : Bool × Bool :=
  let sent := enable_email && condition_active && !active
  let active1 := if sent then true else active
  let active2 := if !condition_active then false else active1
  (sent, active2)

/-- Folding `ghost_alert_update` over a sequence of per-cycle predicate values,
starting from a given state: the list of alert dispatches, one per cycle. -/
def ghost_alert_run (enable_email : Bool) : Bool → List Bool → List Bool
  | _, [] => []
  | active, c :: cs =>
    (ghost_alert_update enable_email c active).1 ::
      ghost_alert_run enable_email (ghost_alert_update enable_email c active).2 cs

/-- The dispatch behaviour of `HVAC_Scenarios_real_time_alerts.py` lines
313-316: `if enable_email and metrics["hours"] >= 2: send_outlook_email(...)`
keeps no alert state, so an email goes out on every cycle whose predicate
holds. -/
def realtime_alert_run (enable_email : Bool) (conds : List Bool) : List Bool :=
  conds.map fun c => enable_email && c

/-! ## Fleet analytics (app_utils.py, compute_analytics lines 21-84) -/

/-- Bucket size in hours, embedding `TIME_STEP_HOURS = 0.25` (app_utils.py line 4). -/
def TIME_STEP_HOURS : ℚ := 1/4

/-- Threshold configuration passed to `compute_analytics` as `cfg` (built in
command_center.py lines 120-127).  `AHU_ZONE_SAT_MIN` models the source key
named for the satisfied-zone quotient threshold (the slider at
command_center.py line 75). -/
structure Cfg where
  ZONE_OVERCOOL_TOL : ℚ
  ZONE_SAT_TOL : ℚ
  AHU_AIRFLOW_HIGH : ℚ
  AHU_ZONE_SAT_MIN : ℚ
  CHILLER_LOW_DT : ℚ
  COST_PER_KWH : ℚ

/-- One raw CSV row of the fleet feed; pandas NaN is `none`. -/
structure Row where
  timestamp : Nat
  zone_id : Option String
  zone_temp : Option ℚ
  zone_setpoint : Option ℚ
  occupancy : Option Int
  ahu_id : Option String
  airflow_pct : Option ℚ
  ahu_status : Option Int
  chiller_id : Option String
  chw_supply_temp : Option ℚ
  chw_return_temp : Option ℚ

/-- A zone row surviving `df.dropna(subset=["zone_temp","zone_setpoint","occupancy","zone_id"])`. -/
structure ZoneRec where
  timestamp : Nat
  zone_id : String
  zone_temp : ℚ
  zone_setpoint : ℚ
  occupancy : Int
deriving DecidableEq

/-- Embedding of the dropna at app_utils.py line 23. -/
def zonesOf (df : List Row) : List ZoneRec :=
  df.filterMap fun r =>
    match r.zone_temp, r.zone_setpoint, r.occupancy, r.zone_id with
    | some t, some sp, some occ, some zid => some ⟨r.timestamp, zid, t, sp, occ⟩
    | _, _, _, _ => none

/-- Zone overcooling flag, embedding lines 24-27:
`(zone_temp < zone_setpoint - ZONE_OVERCOOL_TOL) & (occupancy == 0)`. -/
def overcooled (cfg : Cfg) (z : ZoneRec) : Bool :=
  decide (z.zone_temp < z.zone_setpoint - cfg.ZONE_OVERCOOL_TOL) && (z.occupancy == 0)

/-- Zone cost estimate, embedding lines 28-31:
`(zone_setpoint - zone_temp).clip(lower=0) * 0.3 * COST_PER_KWH`. -/
def zone_est_cost (cfg : Cfg) (z : ZoneRec) : ℚ :=
  max 0 (z.zone_setpoint - z.zone_temp) * (3/10) * cfg.COST_PER_KWH

/-- Embedding of `zone_flags = zones[zones["overcooled"]]` (line 32). -/
def zone_flags (cfg : Cfg) (df : List Row) : List ZoneRec :=
  (zonesOf df).filter (overcooled cfg)

/-- A zone row surviving the AHU-side dropna (line 35), which also requires `ahu_id`. -/
structure AhuZoneRec where
  timestamp : Nat
  ahu_id : String
  zone_id : String
  zone_temp : ℚ
  zone_setpoint : ℚ
  occupancy : Int
deriving DecidableEq

/-- Embedding of the dropna at app_utils.py line 35. -/
def zonesAhuOf (df : List Row) : List AhuZoneRec :=
  df.filterMap fun r =>
    match r.zone_temp, r.zone_setpoint, r.occupancy, r.ahu_id, r.zone_id with
    | some t, some sp, some occ, some aid, some zid =>
      some ⟨r.timestamp, aid, zid, t, sp, occ⟩
    | _, _, _, _, _ => none

/-- Zone satisfaction, embedding lines 36-39:
`(zone_temp <= zone_setpoint + ZONE_SAT_TOL) | (occupancy == 0)`. -/
def zone_satisfied (cfg : Cfg) (z : AhuZoneRec) : Bool :=
  decide (z.zone_temp ≤ z.zone_setpoint + cfg.ZONE_SAT_TOL) || (z.occupancy == 0)

/-- The distinct `(timestamp, ahu_id)` group keys of the pandas groupby (line 41). -/
def groupKeys (zs : List AhuZoneRec) : List (Nat × String) :=
  (zs.map fun z => (z.timestamp, z.ahu_id)).dedup

/-- The rows of one `(timestamp, ahu_id)` group. -/
def groupRows (zs : List AhuZoneRec) (k : Nat × String) : List AhuZoneRec :=
  zs.filter fun z => (z.timestamp, z.ahu_id) == k

/-- One row of `ahu_zone_stats` (lines 41-44): zone count and satisfied-zone
count per `(timestamp, ahu_id)` group (the boolean sum counts true values). -/
structure AhuStat where
  timestamp : Nat
  ahu_id : String
  total_zones : Nat
  satisfied_zones : Nat
deriving DecidableEq

/-- Embedding of the groupby aggregation at lines 41-44. -/
def ahu_zone_stats (cfg : Cfg) (zs : List AhuZoneRec) : List AhuStat :=
  (groupKeys zs).map fun k =>
    ⟨k.1, k.2, (groupRows zs k).length, ((groupRows zs k).filter (zone_satisfied cfg)).length⟩

/-- The satisfied-zone quotient of lines 46-49, source column `satisfied_zones / total_zones`. -/
def satisfied_fraction (satisfied_zones total_zones : Nat) : ℚ :=
  (satisfied_zones : ℚ) / (total_zones : ℚ)

/-- The AHU columns selected for the merge at lines 51-55; rows with a missing
airflow or status value can never be flagged (every pandas NaN comparison is
False), so only complete rows are kept. -/
def ahuRowsOf (df : List Row) : List (Nat × String × ℚ × Int) :=
  df.filterMap fun r =>
    match r.ahu_id, r.airflow_pct, r.ahu_status with
    | some aid, some af, some stat => some (r.timestamp, aid, af, stat)
    | _, _, _ => none

/-- One row of `ahu_data` after the merge at lines 51-55. -/
structure AhuData where
  timestamp : Nat
  ahu_id : String
  total_zones : Nat
  satisfied_zones : Nat
  airflow_pct : ℚ
  ahu_status : Int
deriving DecidableEq

/-- Embedding of `pd.merge(ahu_zone_stats, df[...], on=["timestamp","ahu_id"])`:
each stat row pairs with every AHU row sharing its key. -/
def ahu_merge (cfg : Cfg) (zs : List AhuZoneRec) (ahuRows : List (Nat × String × ℚ × Int)) :
    List AhuData :=
  (ahu_zone_stats cfg zs).flatMap fun s =>
    (ahuRows.filter fun t => (t.1 == s.timestamp) && (t.2.1 == s.ahu_id)).map fun t =>
      ⟨s.timestamp, s.ahu_id, s.total_zones, s.satisfied_zones, t.2.2.1, t.2.2.2⟩

/-- AHU excess-airflow flag, embedding lines 57-61: status ON, airflow at or
above the high threshold, and satisfied quotient at or above its threshold. -/
def ahu_no_demand (cfg : Cfg) (a : AhuData) : Bool :=
  (a.ahu_status == 1) && decide (a.airflow_pct ≥ cfg.AHU_AIRFLOW_HIGH)
    && decide (satisfied_fraction a.satisfied_zones a.total_zones ≥ cfg.AHU_ZONE_SAT_MIN)

/-- AHU cost estimate, embedding lines 63-66:
`(airflow_pct / 100) ** 3 * 10 * TIME_STEP_HOURS * COST_PER_KWH`. -/
def ahu_est_cost (cfg : Cfg) (a : AhuData) : ℚ :=
  (a.airflow_pct / 100) ^ 3 * 10 * TIME_STEP_HOURS * cfg.COST_PER_KWH

/-- Modelled from the spec: the cubic fan-power cost formula
`(airflow_pct/100)^3 * rated_fan_kW * bucket_hours * cost_rate`, stated for
comparison with `ahu_est_cost`. -/
def ahu_cost_spec (rated_fan_kW bucket_hours cost_rate airflow_pct : ℚ) : ℚ :=
  (airflow_pct / 100) ^ 3 * rated_fan_kW * bucket_hours * cost_rate

/-- Embedding of `ahu_flags = ahu_data[ahu_data["ahu_no_demand"]]` (line 68). -/
def ahu_flags (cfg : Cfg) (df : List Row) : List AhuData :=
  (ahu_merge cfg (zonesAhuOf df) (ahuRowsOf df)).filter (ahu_no_demand cfg)

/-- A chiller row surviving the dropna at line 71. -/
structure ChillerRec where
  timestamp : Nat
  chiller_id : String
  chw_supply_temp : ℚ
  chw_return_temp : ℚ
deriving DecidableEq

/-- Embedding of the dropna at app_utils.py line 71. -/
def chillersOf (df : List Row) : List ChillerRec :=
  df.filterMap fun r =>
    match r.chiller_id, r.chw_supply_temp, r.chw_return_temp with
    | some cid, some sup, some ret => some ⟨r.timestamp, cid, sup, ret⟩
    | _, _, _ => none

/-- Chilled-water temperature difference, embedding lines 72-74. -/
def delta_t (c : ChillerRec) : ℚ :=
  c.chw_return_temp - c.chw_supply_temp

/-- Low delta-T flag, embedding line 76: `delta_t < CHILLER_LOW_DT`. -/
def low_delta_t (cfg : Cfg) (c : ChillerRec) : Bool :=
  decide (delta_t c < cfg.CHILLER_LOW_DT)

/-- Chiller cost estimate, embedding lines 77-80:
`(CHILLER_LOW_DT - delta_t).clip(lower=0) * 0.05 * 500 * TIME_STEP_HOURS * COST_PER_KWH`. -/
def chiller_est_cost (cfg : Cfg) (c : ChillerRec) : ℚ :=
  max 0 (cfg.CHILLER_LOW_DT - delta_t c) * (1/20) * 500 * TIME_STEP_HOURS * cfg.COST_PER_KWH

/-- Modelled from the spec: the chiller cost formula
`max(0, threshold - delta_T) * flow_proxy_constant * bucket_hours * cost_rate`,
stated for comparison with `chiller_est_cost`. -/
def chiller_cost_spec (threshold flow_proxy_constant bucket_hours cost_rate dt : ℚ) : ℚ :=
  max 0 (threshold - dt) * flow_proxy_constant * bucket_hours * cost_rate

/-- Embedding of `chiller_flags = chillers[chillers["low_delta_t"]]` (line 82). -/
def chiller_flags (cfg : Cfg) (df : List Row) : List ChillerRec :=
  (chillersOf df).filter (low_delta_t cfg)

/-- Embedding of the full `compute_analytics(df, cfg)` return value (line 84). -/
def compute_analytics (df : List Row) (cfg : Cfg) :
    List ZoneRec × List AhuData × List ChillerRec :=
  (zone_flags cfg df, ahu_flags cfg df, chiller_flags cfg df)

/-- One refresh cycle of command_center.py lines 120-129: the evaluator is
called on the session data frame and the config bundle and hands both back
untouched. -/
def evaluate_cycle (df : List Row) (cfg : Cfg) :
    (List ZoneRec × List AhuData × List ChillerRec) × List Row × Cfg :=
  (compute_analytics df cfg, df, cfg)

/-! ## Empty-set aggregates (C7) -/

/-- Pandas `Series.mean()`: `none` models the NaN returned on an empty series. -/
def seriesMean (xs : List ℚ) : Option ℚ :=
  if xs.isEmpty then none else some (xs.sum / (xs.length : ℚ))

/-- Pandas `Series.nunique()`: the number of distinct values. -/
def nunique (xs : List String) : Nat :=
  xs.dedup.length

/-- The Avg Temp Deviation metric of HVAC_Scenarios_final_v2.py line 286:
`df[df["Fault"]]["Delta_T"].mean()`, with no guard against an empty fault set. -/
def avg_temp_deviation (rows : List CoolRow) : Option ℚ :=
  seriesMean ((fault_rows rows).map fun r => Delta_T r.room r.setp)

/-- The guarded average of line 266:
`df[df["Fault"]]["Delta_T"].mean() if df["Fault"].any() else 0`. -/
def avg_dt_guarded (rows : List CoolRow) : ℚ :=
  if rows.any (fun r => Fault r.room r.setp r.valve) then
    ((fault_rows rows).map fun r => Delta_T r.room r.setp).sum /
      (((fault_rows rows).length : ℚ))
  else 0

/-! ## Time-series aligner (HVAC_Scenarios_final_v2.py lines 163-168 and 248-253)

Each resampled stream is a list of `(bucket timestamp, value-or-NaN)` pairs with
strictly increasing timestamps (a pandas resampled index).  The embedding of
`pd.concat([a, b], axis=1).dropna()` joins two streams on the union of their
timestamps and keeps exactly the rows where both have a value. -/

/-- Value of a stream at timestamp `t` (first matching entry). -/
def lookupKey (t : Nat) : List (Nat × Option ℚ) → Option (Option ℚ)
  | [] => none
  | (k, v) :: rest => if k = t then some v else lookupKey t rest

/-- Sorted union of two strictly increasing timestamp lists (the index union
taken by `pd.concat(axis=1)`). -/
def mergeKeys : List Nat → List Nat → List Nat
  | [], ys => ys
  | x :: xs, [] => x :: xs
  | x :: xs, y :: ys =>
    if x < y then x :: mergeKeys xs (y :: ys)
    else if y < x then y :: mergeKeys (x :: xs) ys
    else x :: mergeKeys xs ys
termination_by xs ys => xs.length + ys.length

/-- The timestamp index of a stream. -/
def keysOf (s : List (Nat × Option ℚ)) : List Nat :=
  s.map Prod.fst

/-- Embedding of `pd.concat([s1, s2], axis=1).dropna()`: outer-join the two
streams on the union of their timestamps, then drop every row in which either
stream has no value. -/
def alignStreams (s1 s2 : List (Nat × Option ℚ)) : List (Nat × ℚ × ℚ) :=
  (mergeKeys (keysOf s1) (keysOf s2)).filterMap fun t =>
    match lookupKey t s1, lookupKey t s2 with
    | some (some v1), some (some v2) => some (t, v1, v2)
    | _, _ => none

/-- Last raw sample value at or before `t` (`none` before the first sample). -/
def lastAtOrBefore (raw : List (Nat × ℚ)) (t : Nat) : Option ℚ :=
  ((raw.filter fun p => p.1 ≤ t).map Prod.snd).getLast?

/-- Embedding of `resample(...).ffill()`: each grid bucket carries the last
known value, `none` (NaN) before the first sample. -/
def resample_ffill (grid : List Nat) (raw : List (Nat × ℚ)) : List (Nat × Option ℚ) :=
  grid.map fun t => (t, lastAtOrBefore raw t)

/-- The raw sample values falling inside the bucket starting at `t`. -/
def bucketValues (raw : List (Nat × ℚ)) (t bucket : Nat) : List ℚ :=
  ((raw.filter fun p => decide (t ≤ p.1) && decide (p.1 < t + bucket)).map Prod.snd)

/-- Embedding of `resample(...).mean()`: each grid bucket carries the mean of
the raw samples inside it, `none` (NaN) for an empty bucket. -/
def resample_mean (grid : List Nat) (bucket : Nat) (raw : List (Nat × ℚ)) :
    List (Nat × Option ℚ) :=
  grid.map fun t => (t, seriesMean (bucketValues raw t bucket))

/-- A sample bucket grid for the aligner. -/
def gridSample : List Nat := [0, 1, 2]

/-- Sample raw power samples (mean-resampled stream). -/
def rawPowerSample : List (Nat × ℚ) := [(0, 4), (1, 6)]

/-- Sample raw status samples (forward-filled stream). -/
def rawStatusSample : List (Nat × ℚ) := [(1, 1)]

/-- The resampled power stream of the sample. -/
def s1Sample : List (Nat × Option ℚ) := resample_mean gridSample 1 rawPowerSample

/-- The resampled status stream of the sample. -/
def s2Sample : List (Nat × Option ℚ) := resample_ffill gridSample rawStatusSample

/-- A sample configuration (the command_center.py defaults). -/
def cfgSample : Cfg :=
  ⟨1, 1/2, 60, 4/5, 4, 10⟩

/-- A one-zone sample group for the AHU rule. -/
def ahuZonesSample : List AhuZoneRec :=
  [⟨0, "AHU1", "Z1", 21, 22, 1⟩]

/-- The aggregation row the sample group produces. -/
def ahuStatSample : AhuStat :=
  ⟨0, "AHU1", 1, 1⟩

/-- A sample chiller record with a low delta-T. -/
def chillerSample : ChillerRec :=
  ⟨0, "CH1", 6, 8⟩

/-! ## Theorems -/

/-- C1: for every `off_start`, `off_end` and hour `h` in `[0,23]`, the schedule
classification assigns `h` exactly one of the labels "ON"/"OFF", and the "OFF"
condition is exactly the wrap-aware window membership stated by the spec. -/
theorem C1_schedule_total (off_start off_end h : Nat)
    (hs : off_start ≤ 23) (he : off_end ≤ 23) (hh : h ≤ 23) :
    (Scheduled_Status off_start off_end h = "OFF" ∨
      Scheduled_Status off_start off_end h = "ON") ∧
    ¬(Scheduled_Status off_start off_end h = "OFF" ∧
      Scheduled_Status off_start off_end h = "ON") ∧
    (off_start > off_end →
      (Scheduled_Status off_start off_end h = "OFF" ↔ (h ≥ off_start ∨ h < off_end))) ∧
    (¬ off_start > off_end →
      (Scheduled_Status off_start off_end h = "OFF" ↔ (off_start ≤ h ∧ h < off_end))) := by
  unfold Scheduled_Status
  split
  · split
    · refine ⟨Or.inl rfl, ?_, fun _ => ⟨fun _ => by assumption, fun _ => rfl⟩,
        fun hc => absurd (by assumption) hc⟩
      rintro ⟨-, hON⟩
      exact absurd hON (by decide)
    · refine ⟨Or.inr rfl, ?_, fun _ => ⟨fun hOFF => absurd hOFF (by decide),
        fun hc => absurd hc (by assumption)⟩, fun hc => absurd (by assumption) hc⟩
      rintro ⟨hOFF, -⟩
      exact absurd hOFF (by decide)
  · split
    · refine ⟨Or.inl rfl, ?_, fun hc => absurd hc (by assumption),
        fun _ => ⟨fun _ => by assumption, fun _ => rfl⟩⟩
      rintro ⟨-, hON⟩
      exact absurd hON (by decide)
    · refine ⟨Or.inr rfl, ?_, fun hc => absurd hc (by assumption),
        fun _ => ⟨fun hOFF => absurd hOFF (by decide), fun hc => absurd hc (by assumption)⟩⟩
      rintro ⟨hOFF, -⟩
      exact absurd hOFF (by decide)

/-- Witness for C1 at the default configuration `off_start = 22`, `off_end = 6`,
hour `h = 3`. -/
theorem C1_schedule_total_witness :
    (22 ≤ 23 ∧ 6 ≤ 23 ∧ 3 ≤ 23) ∧
    ((Scheduled_Status 22 6 3 = "OFF" ∨ Scheduled_Status 22 6 3 = "ON") ∧
    ¬(Scheduled_Status 22 6 3 = "OFF" ∧ Scheduled_Status 22 6 3 = "ON") ∧
    (22 > 6 → (Scheduled_Status 22 6 3 = "OFF" ↔ (3 ≥ 22 ∨ 3 < 6))) ∧
    (¬ 22 > 6 → (Scheduled_Status 22 6 3 = "OFF" ↔ (22 ≤ 3 ∧ 3 < 6)))) :=
  ⟨by decide, C1_schedule_total 22 6 3 (by decide) (by decide) (by decide)⟩

/-- C2: a row is flagged by the ghost-running rule iff its status signal exceeds
0.5 and its hour is OFF-scheduled; total cost sums `power * cost_rate` over the
flagged rows; the spec's concrete case (three OFF-scheduled hours, power 5,
status 1, rate 12) gives total cost 180 and 3 flagged hours. -/
theorem C2_ghost_rule :
    (∀ (off_start off_end : Nat) (rows : List GhostRow) (r : GhostRow),
      r ∈ waste_df off_start off_end rows ↔
        r ∈ rows ∧ r.status > 1/2 ∧ Scheduled_Status off_start off_end r.hour = "OFF") ∧
    (∀ (off_start off_end : Nat) (cost_rate : ℚ) (rows : List GhostRow),
      ghost_total_cost off_start off_end cost_rate rows
        = ((waste_df off_start off_end rows).map (fun r => r.power * cost_rate)).sum) ∧
    ghost_total_cost 22 6 12 [⟨23, 5, 1⟩, ⟨0, 5, 1⟩, ⟨1, 5, 1⟩] = 180 ∧
    hours_flagged 22 6 [⟨23, 5, 1⟩, ⟨0, 5, 1⟩, ⟨1, 5, 1⟩] = 3 := by
  refine ⟨?_, fun _ _ _ _ => rfl,
    by norm_num [ghost_total_cost, waste_df, Actual_Status, Scheduled_Status,
      Energy_Cost, List.filter],
    by norm_num [hours_flagged, waste_df, Actual_Status, Scheduled_Status, List.filter]⟩
  intro off_start off_end rows r
  rw [waste_df, List.mem_filter]
  constructor
  · rintro ⟨hmem, hp⟩
    rw [Bool.and_eq_true, beq_iff_eq, beq_iff_eq] at hp
    obtain ⟨hON, hOFF⟩ := hp
    refine ⟨hmem, ?_, hOFF⟩
    by_contra hle
    rw [Actual_Status, if_neg hle] at hON
    exact absurd hON (by decide)
  · rintro ⟨hmem, hgt, hOFF⟩
    refine ⟨hmem, ?_⟩
    rw [Bool.and_eq_true, beq_iff_eq, beq_iff_eq, Actual_Status, if_pos hgt]
    exact ⟨rfl, hOFF⟩

/-- C3 counterexample: at the spec's concrete input
(room 18, setpoint 22, valve 90, cooling_factor 150) the code flags the fault
and computes `Delta_T = 4`, but the cost is `4 * 150 = 600`: the code applies
no bucket-fraction scaling, so the claimed cost `150 * 4 * 0.25 = 150` is wrong. -/
theorem C3_overcooling_counterexample :
    Fault 18 22 90 = true ∧ Delta_T 18 22 = 4 ∧
    Cooling_Loss 150 18 22 90 = 600 ∧ Cooling_Loss 150 18 22 90 ≠ 150 * 4 * (1/4) := by
  refine ⟨by norm_num [Fault], by norm_num [Delta_T],
    by norm_num [Cooling_Loss, Delta_T, Fault], by norm_num [Cooling_Loss, Delta_T, Fault]⟩

/-- C3 amended: the overcooling rule flags a row iff
`room_temp < setpoint - 1 ∧ valve_position > 80` (tolerance fixed at 1,
threshold fixed at 80), computes `delta_T = max 0 (setpoint - room_temp)`, and
the cost of a row is `delta_T * cooling_penalty_rate` with no bucket-fraction
scaling; the concrete case yields cost 600. -/
theorem C3_overcooling_amended :
    (∀ room setp valve factor : ℚ,
      (Fault room setp valve = true ↔ room < setp - 1 ∧ valve > 80) ∧
      Delta_T room setp = max 0 (setp - room) ∧
      Cooling_Loss factor room setp valve =
        (if room < setp - 1 ∧ valve > 80 then max 0 (setp - room) * factor else 0)) ∧
    Cooling_Loss 150 18 22 90 = 600 := by
  refine ⟨fun room setp valve factor => ⟨?_, rfl, ?_⟩,
    by norm_num [Cooling_Loss, Delta_T, Fault]⟩
  · rw [Fault, Bool.and_eq_true, decide_eq_true_iff, decide_eq_true_iff]
  · rw [Cooling_Loss, Fault]
    by_cases h1 : room < setp - 1 <;> by_cases h2 : valve > 80 <;>
      simp [h1, h2, Delta_T, mul_comm]

/-- C10: when `off_start = off_end`, the non-wrap branch's condition
`off_start ≤ h < off_end` is unsatisfiable, so every hour is labelled "ON" and
the ghost-running rule flags no row at all, whatever the power and status
signals are. -/
theorem C10_degenerate_schedule :
    (∀ s h : Nat, Scheduled_Status s s h = "ON") ∧
    (∀ (s : Nat) (cost_rate : ℚ) (rows : List GhostRow),
      waste_df s s rows = [] ∧
      ghost_total_cost s s cost_rate rows = 0 ∧
      hours_flagged s s rows = 0) := by
  have hON : ∀ s h : Nat, Scheduled_Status s s h = "ON" := by
    intro s h
    rw [Scheduled_Status, if_neg (lt_irrefl s)]
    rw [if_neg]
    rintro ⟨hle, hlt⟩
    exact absurd (lt_of_le_of_lt hle hlt) (lt_irrefl s)
  have hempty : ∀ (s : Nat) (rows : List GhostRow), waste_df s s rows = [] := by
    intro s rows
    rw [waste_df, List.filter_eq_nil_iff]
    intro r _
    rw [Bool.and_eq_true, beq_iff_eq, beq_iff_eq, hON]
    rintro ⟨-, hOFF⟩
    exact absurd hOFF (by decide)
  refine ⟨hON, fun s cost_rate rows => ⟨hempty s rows, ?_, ?_⟩⟩
  · rw [ghost_total_cost, hempty]
    rfl
  · rw [hours_flagged, hempty]
    rfl

/-- With alerts enabled, one update step dispatches exactly when the predicate
holds and the state was inactive, and the new state equals the predicate. -/
theorem ghost_alert_update_spec (c a : Bool) :
    ghost_alert_update true c a = (c && !a, c) := by
  cases c <;> cases a <;> rfl

/-- C4 counterexample: the `HVAC_Scenarios_real_time_alerts.py` dispatch has no
edge-trigger state, so a predicate that is true for 3 consecutive cycles sends
3 alerts, not exactly 1 as the claim states. -/
theorem C4_edge_trigger_counterexample :
    ((realtime_alert_run true [true, true, true]).count true = 3) ∧ (3 : Nat) ≠ 1 := by
  constructor
  · rfl
  · decide

/-- C4 amended: in `HVAC_Scenarios_final_v2.py` the ghost/cooling alert state is
edge-triggered: with alerts enabled, an alert is dispatched in exactly the
cycles where the predicate turns from false (or the initial inactive state) to
true, none while it stays true and none when it turns false — true-true-true
dispatches once and false-true-false-true dispatches twice; the
`HVAC_Scenarios_real_time_alerts.py` variant instead dispatches on every cycle
whose predicate is true. -/
theorem C4_edge_trigger_amended :
    (∀ (conds : List Bool) (active : Bool),
      ghost_alert_run true active conds =
        List.zipWith (fun prev cur => cur && !prev) (active :: conds) conds) ∧
    ((ghost_alert_run true false [true, true, true]).count true = 1) ∧
    ((ghost_alert_run true false [false, true, false, true]).count true = 2) ∧
    (∀ conds : List Bool, realtime_alert_run true conds = conds) := by
  have hrun : ∀ (conds : List Bool) (active : Bool),
      ghost_alert_run true active conds =
        List.zipWith (fun prev cur => cur && !prev) (active :: conds) conds := by
    intro conds
    induction conds with
    | nil => intro active; rfl
    | cons c cs ih =>
      intro active
      rw [ghost_alert_run, ghost_alert_update_spec]
      rw [List.zipWith]
      exact congrArg (List.cons (c && !active)) (ih c)
  refine ⟨hrun, by rw [hrun]; rfl, by rw [hrun]; rfl, fun conds => ?_⟩
  rw [realtime_alert_run]
  simp

/-- C5: per `(timestamp, ahu_id)` group, a zone is satisfied iff
`zone_temp <= setpoint + tolerance` or `occupancy == 0`; each aggregation row
carries the group's zone count and satisfied count, so its quotient is
satisfied-count over zone-count; the fault flag holds iff status is ON, airflow
is at or above the high threshold and the quotient at or above its threshold;
and the cost estimate equals the spec's cubic fan-power formula with
`rated_fan_kW = 10` and `bucket_hours = TIME_STEP_HOURS`. -/
theorem C5_ahu_rule :
    (∀ (cfg : Cfg) (z : AhuZoneRec),
      zone_satisfied cfg z = true ↔
        (z.zone_temp ≤ z.zone_setpoint + cfg.ZONE_SAT_TOL ∨ z.occupancy = 0)) ∧
    (∀ (cfg : Cfg) (zs : List AhuZoneRec) (s : AhuStat), s ∈ ahu_zone_stats cfg zs →
      s.total_zones = (groupRows zs (s.timestamp, s.ahu_id)).length ∧
      s.satisfied_zones =
        ((groupRows zs (s.timestamp, s.ahu_id)).filter (zone_satisfied cfg)).length ∧
      satisfied_fraction s.satisfied_zones s.total_zones =
        (((groupRows zs (s.timestamp, s.ahu_id)).filter (zone_satisfied cfg)).length : ℚ) /
          ((groupRows zs (s.timestamp, s.ahu_id)).length : ℚ)) ∧
    (∀ (cfg : Cfg) (a : AhuData),
      ahu_no_demand cfg a = true ↔
        (a.ahu_status = 1 ∧ a.airflow_pct ≥ cfg.AHU_AIRFLOW_HIGH ∧
          satisfied_fraction a.satisfied_zones a.total_zones ≥ cfg.AHU_ZONE_SAT_MIN)) ∧
    (∀ (cfg : Cfg) (a : AhuData),
      ahu_est_cost cfg a = ahu_cost_spec 10 TIME_STEP_HOURS cfg.COST_PER_KWH a.airflow_pct) := by
  refine ⟨fun cfg z => ?_, fun cfg zs s hs => ?_, fun cfg a => ?_, fun cfg a => ?_⟩
  · rw [zone_satisfied, Bool.or_eq_true, decide_eq_true_iff, beq_iff_eq]
  · obtain ⟨k, hk, rfl⟩ := List.mem_map.mp hs
    rw [Prod.mk.eta]
    exact ⟨rfl, rfl, rfl⟩
  · rw [ahu_no_demand, Bool.and_eq_true, Bool.and_eq_true, beq_iff_eq,
      decide_eq_true_iff, decide_eq_true_iff, and_assoc]
  · rfl

/-- Witness for C5 at a one-zone group: the group's aggregation row belongs to
the stats list and satisfies the per-group characterisation. -/
theorem C5_ahu_rule_witness :
    ahuStatSample ∈ ahu_zone_stats cfgSample ahuZonesSample ∧
    (ahuStatSample.total_zones =
        (groupRows ahuZonesSample (ahuStatSample.timestamp, ahuStatSample.ahu_id)).length ∧
      ahuStatSample.satisfied_zones =
        ((groupRows ahuZonesSample (ahuStatSample.timestamp, ahuStatSample.ahu_id)).filter
          (zone_satisfied cfgSample)).length ∧
      satisfied_fraction ahuStatSample.satisfied_zones ahuStatSample.total_zones =
        (((groupRows ahuZonesSample (ahuStatSample.timestamp, ahuStatSample.ahu_id)).filter
            (zone_satisfied cfgSample)).length : ℚ) /
          ((groupRows ahuZonesSample (ahuStatSample.timestamp, ahuStatSample.ahu_id)).length : ℚ)) := by
  have hmem : ahuStatSample ∈ ahu_zone_stats cfgSample ahuZonesSample := by
    norm_num [ahu_zone_stats, groupKeys, groupRows, zone_satisfied, cfgSample,
      ahuZonesSample, ahuStatSample, List.dedup]
  exact ⟨hmem, C5_ahu_rule.2.1 cfgSample ahuZonesSample ahuStatSample hmem⟩

/-- C6: the chiller rule computes `delta_T` as return minus supply temperature,
flags iff `delta_T` is below the threshold, and its cost estimate equals the
spec's formula with `flow_proxy_constant = 0.05 * 500` and
`bucket_hours = TIME_STEP_HOURS`; the estimate is never negative when the cost
rate is nonnegative. -/
theorem C6_chiller_rule (cfg : Cfg) (c : ChillerRec) :
    delta_t c = c.chw_return_temp - c.chw_supply_temp ∧
    (low_delta_t cfg c = true ↔ delta_t c < cfg.CHILLER_LOW_DT) ∧
    chiller_est_cost cfg c =
      chiller_cost_spec cfg.CHILLER_LOW_DT ((1/20) * 500) TIME_STEP_HOURS
        cfg.COST_PER_KWH (delta_t c) ∧
    (0 ≤ cfg.COST_PER_KWH → 0 ≤ chiller_est_cost cfg c) := by
  refine ⟨rfl, ?_, ?_, fun hrate => ?_⟩
  · rw [low_delta_t, decide_eq_true_iff]
  · rw [chiller_est_cost, chiller_cost_spec]
    ring
  · rw [chiller_est_cost]
    have h0 : (0:ℚ) ≤ max 0 (cfg.CHILLER_LOW_DT - delta_t c) := le_max_left 0 _
    have hT : (0:ℚ) ≤ TIME_STEP_HOURS := by norm_num [TIME_STEP_HOURS]
    positivity

/-- Witness for C6 at the sample chiller (delta-T 2, threshold 4, rate 10). -/
theorem C6_chiller_rule_witness :
    (0:ℚ) ≤ cfgSample.COST_PER_KWH ∧ 0 ≤ chiller_est_cost cfgSample chillerSample := by
  have hrate : (0:ℚ) ≤ cfgSample.COST_PER_KWH := by norm_num [cfgSample]
  exact ⟨hrate, (C6_chiller_rule cfgSample chillerSample).2.2.2 hrate⟩

/-- C7: on an empty aligned batch every cost sum is 0 and every distinct-asset
count is 0 with no error, and the guarded average of line 266 reports 0 — but
the Avg Temp Deviation metric of line 286 evaluates the pandas mean of an empty
series, which is NaN (here `none`), not 0: the code diverges from the claim at
exactly that aggregate. -/
theorem C7_empty_aggregates :
    (∀ cfg : Cfg,
      ((zone_flags cfg []).map (zone_est_cost cfg)).sum = 0 ∧
      ((ahu_flags cfg []).map (ahu_est_cost cfg)).sum = 0 ∧
      ((chiller_flags cfg []).map (chiller_est_cost cfg)).sum = 0 ∧
      nunique ((zone_flags cfg []).map ZoneRec.zone_id) = 0 ∧
      nunique ((ahu_flags cfg []).map AhuData.ahu_id) = 0 ∧
      nunique ((chiller_flags cfg []).map ChillerRec.chiller_id) = 0) ∧
    ghost_total_cost 22 6 12 [] = 0 ∧
    avg_dt_guarded [] = 0 ∧
    avg_temp_deviation [] = none ∧
    avg_temp_deviation [] ≠ some 0 := by
  refine ⟨fun cfg => ⟨rfl, rfl, rfl, rfl, rfl, rfl⟩, rfl, rfl, rfl, ?_⟩
  simp [avg_temp_deviation, seriesMean, fault_rows]

/-- C9: one evaluation cycle is a pure function of the batch and the config: it
hands both inputs back unchanged, re-running it on them yields identical
fault-flag and cost output, and the carbon estimate is deterministic. -/
theorem C9_deterministic_evaluator :
    ∀ (df : List Row) (cfg : Cfg),
      (evaluate_cycle df cfg).2.1 = df ∧
      (evaluate_cycle df cfg).2.2 = cfg ∧
      (evaluate_cycle ((evaluate_cycle df cfg).2.1) ((evaluate_cycle df cfg).2.2)).1
        = (evaluate_cycle df cfg).1 ∧
      compute_analytics df cfg = compute_analytics df cfg ∧
      (∀ kwh : ℚ, calculate_carbon kwh = calculate_carbon kwh) :=
  fun _ _ => ⟨rfl, rfl, rfl, rfl, fun _ => rfl⟩

/-- The resampled index is exactly the grid. -/
theorem keysOf_map_pair (g : Nat → Option ℚ) :
    ∀ grid : List Nat, keysOf (grid.map fun t => (t, g t)) = grid := by
  intro grid
  induction grid with
  | nil => rfl
  | cons a l ih => simp only [List.map_cons, keysOf] at ih ⊢; rw [ih]

/-- Membership in the timestamp union. -/
theorem mergeKeys_mem (a : Nat) : ∀ (xs ys : List Nat),
    a ∈ mergeKeys xs ys ↔ a ∈ xs ∨ a ∈ ys := by
  intro xs ys
  induction xs, ys using mergeKeys.induct with
  | case1 ys => simp [mergeKeys]
  | case2 x xs => simp [mergeKeys]
  | case3 x xs y ys hlt ih =>
    rw [mergeKeys, if_pos hlt]
    simp only [List.mem_cons, ih]
    tauto
  | case4 x xs y ys hlt hgt ih =>
    rw [mergeKeys, if_neg hlt, if_pos hgt]
    simp only [List.mem_cons, ih]
    tauto
  | case5 x xs y ys hlt hgt ih =>
    have hxy : x = y := Nat.le_antisymm (Nat.not_lt.mp hgt) (Nat.not_lt.mp hlt)
    rw [mergeKeys, if_neg hlt, if_neg hgt]
    simp only [List.mem_cons, ih, hxy]
    tauto

/-- The union of two strictly increasing timestamp lists is strictly
increasing. -/
theorem mergeKeys_pairwise : ∀ (xs ys : List Nat),
    xs.Pairwise (· < ·) → ys.Pairwise (· < ·) → (mergeKeys xs ys).Pairwise (· < ·) := by
  intro xs ys
  induction xs, ys using mergeKeys.induct with
  | case1 ys => intro _ h; simpa [mergeKeys] using h
  | case2 x xs => intro h _; simpa [mergeKeys] using h
  | case3 x xs y ys hlt ih =>
    intro h1 h2
    rw [mergeKeys, if_pos hlt]
    rw [List.pairwise_cons] at h1 ⊢
    refine ⟨?_, ih h1.2 h2⟩
    intro b hb
    rcases (mergeKeys_mem b xs (y :: ys)).mp hb with hbx | hby
    · exact h1.1 b hbx
    · rcases List.mem_cons.mp hby with rfl | hby'
      · exact hlt
      · exact lt_trans hlt ((List.pairwise_cons.mp h2).1 b hby')
  | case4 x xs y ys hlt hgt ih =>
    intro h1 h2
    rw [mergeKeys, if_neg hlt, if_pos hgt]
    rw [List.pairwise_cons] at h2 ⊢
    refine ⟨?_, ih h1 h2.2⟩
    intro b hb
    rcases (mergeKeys_mem b (x :: xs) ys).mp hb with hbx | hby
    · rcases List.mem_cons.mp hbx with rfl | hbx'
      · exact hgt
      · exact lt_trans hgt ((List.pairwise_cons.mp h1).1 b hbx')
    · exact h2.1 b hby
  | case5 x xs y ys hlt hgt ih =>
    intro h1 h2
    have hxy : x = y := Nat.le_antisymm (Nat.not_lt.mp hgt) (Nat.not_lt.mp hlt)
    rw [mergeKeys, if_neg hlt, if_neg hgt]
    rw [List.pairwise_cons] at h1 h2 ⊢
    refine ⟨?_, ih h1.2 h2.2⟩
    intro b hb
    rcases (mergeKeys_mem b xs ys).mp hb with hbx | hby
    · exact h1.1 b hbx
    · rw [hxy]; exact h2.1 b hby

/-- On a stream with duplicate-free timestamps, the lookup finds exactly the
entries of the stream. -/
theorem lookupKey_eq_some_iff (t : Nat) (v : Option ℚ) :
    ∀ s : List (Nat × Option ℚ), (keysOf s).Nodup →
      (lookupKey t s = some v ↔ (t, v) ∈ s) := by
  intro s
  induction s with
  | nil => intro _; simp [lookupKey]
  | cons p rest ih =>
    obtain ⟨k, w⟩ := p
    intro hnd
    rw [keysOf, List.map_cons, List.nodup_cons] at hnd
    rw [lookupKey]
    by_cases hk : k = t
    · subst hk
      rw [if_pos rfl]
      simp only [List.mem_cons, Option.some_inj]
      constructor
      · rintro rfl; exact Or.inl rfl
      · rintro (h | h)
        · exact (Prod.ext_iff.mp h.symm).2
        · exact absurd (List.mem_map_of_mem Prod.fst h) hnd.1
    · rw [if_neg hk]
      rw [ih hnd.2]
      simp only [List.mem_cons]
      constructor
      · exact Or.inr
      · rintro (h | h)
        · exact absurd (congrArg Prod.fst h).symm hk
        · exact h

/-- A `filterMap` carries a pairwise relation along the function. -/
theorem pairwise_filterMap_lt {α β : Type} (f : α → Option β) (R : α → α → Prop)
    (S : β → β → Prop)
    (hf : ∀ a b a' b', f a = some a' → f b = some b' → R a b → S a' b') :
    ∀ l : List α, l.Pairwise R → (l.filterMap f).Pairwise S := by
  intro l
  induction l with
  | nil => intro _; simp
  | cons a l ih =>
    intro hp
    rw [List.pairwise_cons] at hp
    rw [List.filterMap_cons]
    cases hfa : f a with
    | none => exact ih hp.2
    | some a' =>
      rw [List.pairwise_cons]
      refine ⟨?_, ih hp.2⟩
      intro b' hb'
      obtain ⟨b, hb, hfb⟩ := List.mem_filterMap.mp hb'
      exact hf a b a' b' hfa hfb (hp.1 b hb)

/-- The join keeps exactly the timestamps at which both streams have a value,
with both values attached. -/
theorem align_mem (s1 s2 : List (Nat × Option ℚ))
    (h1 : (keysOf s1).Pairwise (· < ·)) (h2 : (keysOf s2).Pairwise (· < ·)) :
    ∀ (t : Nat) (v1 v2 : ℚ),
      (t, v1, v2) ∈ alignStreams s1 s2 ↔ ((t, some v1) ∈ s1 ∧ (t, some v2) ∈ s2) := by
  have hnd1 : (keysOf s1).Nodup := h1.imp Nat.ne_of_lt
  have hnd2 : (keysOf s2).Nodup := h2.imp Nat.ne_of_lt
  intro t v1 v2
  rw [alignStreams, List.mem_filterMap]
  constructor
  · rintro ⟨u, hu, hf⟩
    cases hl1 : lookupKey u s1 with
    | none => rw [hl1] at hf; simp at hf
    | some o1 =>
      cases o1 with
      | none => rw [hl1] at hf; simp at hf
      | some w1 =>
        cases hl2 : lookupKey u s2 with
        | none => rw [hl1, hl2] at hf; simp at hf
        | some o2 =>
          cases o2 with
          | none => rw [hl1, hl2] at hf; simp at hf
          | some w2 =>
            rw [hl1, hl2] at hf
            simp only [Option.some_inj, Prod.mk.injEq] at hf
            obtain ⟨hu', hw1, hw2⟩ := hf
            subst hu'; subst hw1; subst hw2
            exact ⟨(lookupKey_eq_some_iff _ _ s1 hnd1).mp hl1,
              (lookupKey_eq_some_iff _ _ s2 hnd2).mp hl2⟩
  · rintro ⟨hm1, hm2⟩
    refine ⟨t, ?_, ?_⟩
    · rw [mergeKeys_mem]
      exact Or.inl (List.mem_map_of_mem Prod.fst hm1)
    · rw [(lookupKey_eq_some_iff t (some v1) s1 hnd1).mpr hm1,
        (lookupKey_eq_some_iff t (some v2) s2 hnd2).mpr hm2]

/-- The joined output is strictly increasing in timestamp. -/
theorem align_sorted (s1 s2 : List (Nat × Option ℚ))
    (h1 : (keysOf s1).Pairwise (· < ·)) (h2 : (keysOf s2).Pairwise (· < ·)) :
    ((alignStreams s1 s2).map Prod.fst).Pairwise (· < ·) := by
  rw [List.pairwise_map]
  apply pairwise_filterMap_lt _ (· < ·) _ _ _ (mergeKeys_pairwise _ _ h1 h2)
  intro a b p q hfa hfb hab
  have hpa : p.1 = a := by
    cases ha1 : lookupKey a s1 with
    | none => rw [ha1] at hfa; simp at hfa
    | some o1 =>
      cases o1 with
      | none => rw [ha1] at hfa; simp at hfa
      | some w1 =>
        cases ha2 : lookupKey a s2 with
        | none => rw [ha1, ha2] at hfa; simp at hfa
        | some o2 =>
          cases o2 with
          | none => rw [ha1, ha2] at hfa; simp at hfa
          | some w2 =>
            rw [ha1, ha2] at hfa
            simp only [Option.some_inj] at hfa
            rw [← hfa]
  have hqb : q.1 = b := by
    cases hb1 : lookupKey b s1 with
    | none => rw [hb1] at hfb; simp at hfb
    | some o1 =>
      cases o1 with
      | none => rw [hb1] at hfb; simp at hfb
      | some w1 =>
        cases hb2 : lookupKey b s2 with
        | none => rw [hb1, hb2] at hfb; simp at hfb
        | some o2 =>
          cases o2 with
          | none => rw [hb1, hb2] at hfb; simp at hfb
          | some w2 =>
            rw [hb1, hb2] at hfb
            simp only [Option.some_inj] at hfb
            rw [← hfb]
  rw [hpa, hqb]
  exact hab

/-- C8: each stream is resampled independently onto its grid (the output index
is exactly the grid, in order), the join keeps exactly the rows in which every
stream has a value after fill (inner join on timestamp), and the joined output
is strictly increasing in timestamp — ascending order, no duplicate buckets. -/
theorem C8_aligner_join (s1 s2 : List (Nat × Option ℚ))
    (h1 : (keysOf s1).Pairwise (· < ·)) (h2 : (keysOf s2).Pairwise (· < ·)) :
    (∀ (t : Nat) (v1 v2 : ℚ),
      (t, v1, v2) ∈ alignStreams s1 s2 ↔ ((t, some v1) ∈ s1 ∧ (t, some v2) ∈ s2)) ∧
    ((alignStreams s1 s2).map Prod.fst).Pairwise (· < ·) ∧
    (∀ (grid : List Nat) (bucket : Nat) (raw : List (Nat × ℚ)),
      keysOf (resample_ffill grid raw) = grid ∧
      keysOf (resample_mean grid bucket raw) = grid) := by
  refine ⟨align_mem s1 s2 h1 h2, align_sorted s1 s2 h1 h2, fun grid bucket raw => ⟨?_, ?_⟩⟩
  · exact keysOf_map_pair (lastAtOrBefore raw) grid
  · exact keysOf_map_pair (fun t => seriesMean (bucketValues raw t bucket)) grid

/-- Witness for C8 on a mean-resampled power stream and a forward-filled status
stream over the grid 0,1,2. -/
theorem C8_aligner_join_witness :
    ((keysOf s1Sample).Pairwise (· < ·) ∧ (keysOf s2Sample).Pairwise (· < ·)) ∧
    ((alignStreams s1Sample s2Sample).map Prod.fst).Pairwise (· < ·) := by
  have h1 : (keysOf s1Sample).Pairwise (· < ·) := by
    simp [keysOf, s1Sample, resample_mean, gridSample]
  have h2 : (keysOf s2Sample).Pairwise (· < ·) := by
    simp [keysOf, s2Sample, resample_ffill, gridSample]
  exact ⟨⟨h1, h2⟩, (C8_aligner_join s1Sample s2Sample h1 h2).2.1⟩

end HVAC
